import Mathlib

/-!
Shallow embedding of the forest-rents unified stumpage pipeline.

The embedded code is the integration layer of the repository: the four
scripts `integrate_mn_forest_resources.py`, `integrate_ca_cdtfa.py`,
`integrate_wv_forestry.py` and `integrate_usfs_pnw_species.py`.  Each script's
`transform_to_unified` row loop, its `drop_duplicates(..., keep="last")`
call and the merge logic of its `main` function are translated into Lean
definitions; floating-point prices are modelled as rationals, missing values
(NaN / None) as `Option`, and `pandas` primitives (`drop_duplicates`,
`filter`, `sort_values`, `concat`) as the corresponding list operations.
-/

namespace ForestRents

/-! ### String helpers modelling Python str methods -/

/-- Apply a character-wise transformation to a string. -/
def strMap (f : Char → Char) (s : String) : String := ⟨s.data.map f⟩

/-- Python `str.lower` (character-wise). -/
def lowerStr (s : String) : String := strMap Char.toLower s

/-- Python `str.replace(a, b)` for single-character needles. -/
def replaceChar (a b : Char) (s : String) : String :=
  strMap (fun c => if c = a then b else c) s

/-- Does `needle` occur at the head of `hay`? -/
def subAt : List Char → List Char → Bool
  | [], _ => true
  | _ :: _, [] => false
  | c :: cs, d :: ds => c = d && subAt cs ds

/-- Does `needle` occur anywhere in `hay`? -/
def subIn (needle : List Char) : List Char → Bool
  | [] => needle.isEmpty
  | c :: cs => subAt needle (c :: cs) || subIn needle cs

/-- Python `needle in hay` for strings (substring containment),
also `pandas.Series.str.contains` on a non-null entry. -/
def strContainsSub (hay needle : String) : Bool := subIn needle.data hay.data

/-! ### Python `round(x, 2)` (round half to even) on rationals -/

/-- Round a rational to the nearest integer, ties to even. -/
def roundEvenInt (q : ℚ) : ℤ :=
  let f : ℤ := ⌊q⌋
  let r : ℚ := q - f
  if r < 1/2 then f else if 1/2 < r then f + 1 else if f % 2 = 0 then f else f + 1

/-- Python `round(x, 2)`: round to two decimal places, ties to even. -/
def round2 (q : ℚ) : ℚ := (roundEvenInt (q * 100) : ℚ) / 100

/-! ### The canonical record (one row of `stumpage_unified.csv`) -/

/-- One row of the unified dataset, with the column set produced by the
integration scripts.  Nullable CSV cells are `Option`-valued. -/
structure Row where
  source : String
  year : ℤ
  quarter : Option ℤ
  period_type : String
  region : String
  county : Option String
  species : String
  product_type : String
  price_avg : ℚ
  price_low : Option ℚ
  price_high : Option ℚ
  unit : String
  price_per_ton : Option ℚ
  conversion_factor : Option ℚ
  sample_size : Option ℚ
  notes : String
deriving DecidableEq, Repr

/-- The composite key of the spec:
(source, year, quarter, species, region, product_type). -/
def key6 (r : Row) : String × ℤ × Option ℤ × String × String × String :=
  (r.source, r.year, r.quarter, r.species, r.region, r.product_type)

/-- Two rows have distinct composite keys. -/
def keyDistinct (a b : Row) : Prop := key6 a ≠ key6 b

instance (a b : Row) : Decidable (keyDistinct a b) :=
  inferInstanceAs (Decidable (key6 a ≠ key6 b))

/-- Projection of the three price columns of a row. -/
def priceTriple (r : Row) : Option ℚ × ℚ × Option ℚ :=
  (r.price_low, r.price_avg, r.price_high)

/-! ### pandas primitives -/

/-- `DataFrame.drop_duplicates(subset=k, keep="last")`: keep, in original
order, exactly the rows that have no later occurrence of the same key. -/
def dedupLast {α β : Type} [DecidableEq β] (k : α → β) : List α → List α
  | [] => []
  | r :: rs => if rs.any (fun s => decide (k s = k r)) then dedupLast k rs
               else r :: dedupLast k rs

/-- Comparison used by `sort_values([..., "quarter"], na_position="last")`:
missing quarters compare as largest. -/
def optLeB : Option ℤ → Option ℤ → Bool
  | some x, some y => decide (x ≤ y)
  | some _, none => true
  | none, some _ => false
  | none, none => true

/-- Lexicographic order on character lists (by code point). -/
def strLtB : List Char → List Char → Bool
  | [], [] => false
  | [], _ :: _ => true
  | _ :: _, [] => false
  | c :: cs, d :: ds => if c = d then strLtB cs ds else decide (c < d)

/-- String comparison used when sorting by the `source` column. -/
def strLt (a b : String) : Bool := strLtB a.data b.data

/-- Lexicographic comparison on (source, year, quarter), nulls last:
the key of `sort_values(["source", "year", "quarter"], na_position="last")`. -/
def rowLeB (a b : Row) : Bool :=
  if a.source = b.source then
    (if a.year = b.year then optLeB a.quarter b.quarter else decide (a.year < b.year))
  else strLt a.source b.source

/-- `sort_values(["source", "year", "quarter"], na_position="last")`.  The
claims below use only that sorting permutes the rows, so the choice of a
concrete (insertion) sort is immaterial. -/
def sortRows (l : List Row) : List Row :=
  List.insertionSort (fun a b => rowLeB a b = true) l

/-- The outcome of one integration script run: either the script aborted
with an uncaught exception before reaching `to_csv`, or it wrote a dataset. -/
inductive RunResult where
  | aborted : RunResult
  | wrote : List Row → RunResult
deriving DecidableEq, Repr

/-! ### `integrate_mn_forest_resources.py` -/

namespace MN

/-- One row of `mn_stumpage_forest_resources.csv` as consumed by the script. -/
structure MNRaw where
  year : ℤ
  species : String
  product_type : String
  unit : String
  price : Option ℚ
deriving DecidableEq, Repr

def PRODUCT_MAP : List (String × String) :=
  [("pulpwood", "cordwood"), ("pulp_bolts", "cordwood"), ("sawtimber", "sawtimber"),
   ("cord", "cordwood"), ("mbf", "sawtimber")]

def CORD_TO_TONS : ℚ := 2.3

def MBF_TO_TONS : ℚ := 4.0

/-- The body of the `for _, row in df.iterrows()` loop of
`transform_to_unified`: `none` when the row is skipped by `continue`. -/
def transform_row (row : MNRaw) : Option Row :=
  match row.price with
  | none => none
  | some price =>
    if price = 0 then none
    else
      let product_std := (List.lookup row.product_type PRODUCT_MAP).getD row.product_type
      let pc : Option ℚ × Option ℚ :=
        if row.unit = "$/cord" then (some (price / CORD_TO_TONS), some CORD_TO_TONS)
        else if row.unit = "$/MBF" then (some (price / MBF_TO_TONS), some MBF_TO_TONS)
        else (none, none)
      let notes :=
        if row.product_type = "pulp_bolts" then
          "MN Forest Resources Report. Pulp and bolts combined price."
        else "MN Forest Resources Report. Public agencies stumpage."
      some { source := "MN", year := row.year, quarter := none, period_type := "annual",
             region := "Statewide", county := none, species := row.species,
             product_type := product_std, price_avg := price,
             price_low := none, price_high := none, unit := row.unit,
             price_per_ton := pc.1.bind (fun v => if v = 0 then none else some (round2 v)),
             conversion_factor := pc.2, sample_size := none, notes := notes }

def transform_to_unified (l : List MNRaw) : List Row := l.filterMap transform_row

/-- Subset of `drop_duplicates` in `main`:
`['source', 'year', 'species', 'product_type']`. -/
def mnKey (r : Row) : String × ℤ × String × String :=
  (r.source, r.year, r.species, r.product_type)

/-- Keep an existing row: it is removed exactly when
`source == 'MN' and year >= 2013`. -/
def keepRow (r : Row) : Bool := !(decide (r.source = "MN") && decide (2013 ≤ r.year))

/-- The merge logic of `main`, as reached on a run whose transformed batch
is nonempty and whose existing dataset was read: dedup the batch, prune MN
rows with `year >= 2013`, concat, sort. -/
def integrate (existing : List Row) (raws : List MNRaw) : List Row :=
  let mn_unified := dedupLast mnKey (transform_to_unified raws)
  sortRows (existing.filter keepRow ++ mn_unified)

/-- `main` as a function of the result of `pd.read_csv(UNIFIED_PATH)`.
When every input row is skipped, `pd.DataFrame(rows)` has no columns and
the run aborts with an uncaught `KeyError` in `show_summary`
(`df['year'].min()`) before the unified dataset is read; when the dataset
cannot be read, the exception propagates and nothing is written; otherwise
the merged dataset is written. -/
def main (readResult : Option (List Row)) (raws : List MNRaw) : RunResult :=
  if (transform_to_unified raws).isEmpty then RunResult.aborted
  else
    match readResult with
    | none => RunResult.aborted
    | some existing => RunResult.wrote (integrate existing raws)

end MN

/-! ### `integrate_ca_cdtfa.py` -/

namespace CA

/-- One row of `ca_stumpage_parsed.csv` as consumed by the script.
`timber_type` models `row.get('timber_type', 'green')`. -/
structure CARaw where
  year : ℤ
  half : ℤ
  species : String
  timber_value_area : ℤ
  timber_type : Option String
  size_code : String
  price_mbf : Option ℚ
deriving DecidableEq, Repr

def SPECIES_MAP : List (String × String) :=
  [("Ponderosa Pine", "ponderosa_pine"), ("Douglas Fir", "douglas_fir"),
   ("Hemlock-Fir", "hemlock_fir"), ("Incense Cedar", "incense_cedar"),
   ("Redwood", "redwood"), ("Port Orford Cedar", "port_orford_cedar")]

def TVA_REGIONS : List (ℤ × String) :=
  [(1, "North Coast (Del Norte, Humboldt)"), (2, "Mendocino Coast"),
   (3, "Santa Cruz Mountains"), (4, "North Interior (Trinity, Shasta West)"),
   (5, "Northeast (Modoc, Lassen, Siskiyou East)"), (6, "Sacramento Valley"),
   (7, "Sierra Nevada North"), (8, "Sierra Nevada Central"), (9, "Southern California")]

def MBF_TO_TONS : ℚ := 4.0

/-- The species fallback of the script:
`row['species'].lower().replace(' ', '_').replace('-', '_')`. -/
def speciesFallback (s : String) : String :=
  replaceChar '-' '_' (replaceChar ' ' '_' (lowerStr s))

/-- The body of the row loop of `transform_to_unified`. -/
def transform_row (row : CARaw) : Option Row :=
  match row.price_mbf with
  | none => none
  | some price_mbf =>
    let price_per_ton := price_mbf / MBF_TO_TONS
    let species_std := (List.lookup row.species SPECIES_MAP).getD (speciesFallback row.species)
    let region_desc := (List.lookup row.timber_value_area TVA_REGIONS).getD
      ("TVA " ++ toString row.timber_value_area)
    let product_type := "sawtimber_" ++ row.timber_type.getD "green"
    some { source := "CA", year := row.year, quarter := none, period_type := "semi-annual",
           region := "TVA_" ++ toString row.timber_value_area, county := some region_desc,
           species := species_std, product_type := product_type,
           price_avg := price_mbf, price_low := none, price_high := none, unit := "$/MBF",
           price_per_ton := some (round2 price_per_ton),
           conversion_factor := some MBF_TO_TONS, sample_size := none,
           notes := "CDTFA harvest values " ++ toString row.year ++ " H" ++
             toString row.half ++ ". Size: " ++ row.size_code ++
             ". Tax assessment, not market." }

def transform_to_unified (l : List CARaw) : List Row := l.filterMap transform_row

/-- Subset of `drop_duplicates` in `main`:
`['source', 'year', 'species', 'region', 'product_type', 'notes']`. -/
def caKey (r : Row) : String × ℤ × String × String × String × String :=
  (r.source, r.year, r.species, r.region, r.product_type, r.notes)

/-- Keep an existing row: it is removed exactly when
`existing_df['notes'].str.contains('CDTFA', na=False)` holds. -/
def keepRow (r : Row) : Bool := !(strContainsSub r.notes "CDTFA")

/-- The merge logic of `main`, as reached on a run whose transformed batch
is nonempty and whose existing dataset was read. -/
def integrate (existing : List Row) (raws : List CARaw) : List Row :=
  let ca_unified := dedupLast caKey (transform_to_unified raws)
  sortRows (existing.filter keepRow ++ ca_unified)

/-- `main` as a function of the result of `pd.read_csv(UNIFIED_PATH)`.
When every input row is skipped, `pd.DataFrame(rows)` has no columns and
the run aborts with an uncaught `KeyError` (in `drop_duplicates(subset=...)`
or in `show_summary`) before the unified dataset is read; when the dataset
cannot be read, the exception propagates and nothing is written; otherwise
the merged dataset is written. -/
def main (readResult : Option (List Row)) (raws : List CARaw) : RunResult :=
  if (transform_to_unified raws).isEmpty then RunResult.aborted
  else
    match readResult with
    | none => RunResult.aborted
    | some existing => RunResult.wrote (integrate existing raws)

end CA

/-! ### `integrate_wv_forestry.py` -/

namespace WV

/-- One row of `wv_stumpage_parsed.csv` as consumed by the script.
`price_low`, `price_high`, `num_reports` model `row.get(...)`. -/
structure WVRaw where
  year : ℤ
  region : String
  species : String
  product_type : String
  unit : String
  price_avg : Option ℚ
  price_low : Option ℚ
  price_high : Option ℚ
  num_reports : Option ℚ
deriving DecidableEq, Repr

def SPECIES_MAP : List (String × String) :=
  [("Walnut", "black_walnut"), ("White Oak", "white_oak"), ("Red Oak", "red_oak"),
   ("Other Oak", "other_oak"), ("Cherry", "black_cherry"), ("Hard Maple", "hard_maple"),
   ("Soft Maple", "soft_maple"), ("Ash", "ash"), ("Yellow Poplar", "yellow_poplar"),
   ("Basswood", "basswood"), ("Hickory", "hickory"), ("White Pine", "white_pine"),
   ("Other Pine", "other_pine"), ("Other Hardwood", "other_hardwood"), ("Mixed", "mixed")]

def REGION_MAP : List (String × String) :=
  [("Region 1", "Eastern Panhandle"), ("Region 2", "Northwestern"),
   ("Region 3", "Southwestern"), ("Region 4", "Southern"), ("Region 5", "Northeastern")]

def MBF_TO_TONS : ℚ := 5.0

/-- The species fallback of the script:
`species.lower().replace(' ', '_')` (no hyphen replacement). -/
def speciesFallback (s : String) : String := replaceChar ' ' '_' (lowerStr s)

/-- The body of the row loop of `transform_to_unified`. -/
def transform_row (row : WVRaw) : Option Row :=
  match row.price_avg with
  | none => none
  | some price =>
    if price = 0 then none
    else
      let region_std := (List.lookup row.region REGION_MAP).getD row.region
      let species_std := (List.lookup row.species SPECIES_MAP).getD (speciesFallback row.species)
      let pc : Option ℚ × Option ℚ :=
        if row.unit = "$/MBF" then (some (price / MBF_TO_TONS), some MBF_TO_TONS)
        else if row.unit = "$/Cord" then (some (price / 2.5), some 2.5)
        else (none, none)
      let product_type :=
        if row.product_type = "Stumpage" then "sawtimber"
        else if row.product_type = "Pulpwood" then "pulpwood"
        else lowerStr row.product_type
      some { source := "WV", year := row.year, quarter := none, period_type := "annual",
             region := region_std, county := none, species := species_std,
             product_type := product_type, price_avg := price,
             price_low := row.price_low, price_high := row.price_high, unit := row.unit,
             price_per_ton := pc.1.bind (fun v => if v = 0 then none else some (round2 v)),
             conversion_factor := pc.2, sample_size := row.num_reports,
             notes := "WV Division of Forestry Timber Market Report" }

def transform_to_unified (l : List WVRaw) : List Row := l.filterMap transform_row

/-- Subset of `drop_duplicates` in `main`:
`['source', 'year', 'species', 'region', 'product_type']`. -/
def wvKey (r : Row) : String × ℤ × String × String × String :=
  (r.source, r.year, r.species, r.region, r.product_type)

/-- Keep an existing row: it is removed exactly when `source == 'WV'`. -/
def keepRow (r : Row) : Bool := !(decide (r.source = "WV"))

/-- The merge/replace engine of `main` applied to an already-prepared batch:
drop all existing `WV` rows, append the batch, sort. -/
def merge (existing batch : List Row) : List Row :=
  sortRows (existing.filter keepRow ++ batch)

/-- The merge logic of `main`, as reached on a run whose transformed batch
is nonempty and whose existing dataset was read. -/
def integrate (existing : List Row) (raws : List WVRaw) : List Row :=
  merge existing (dedupLast wvKey (transform_to_unified raws))

/-- `main` as a function of the result of `pd.read_csv(UNIFIED_PATH)`.
When every input row is skipped, `pd.DataFrame(rows)` has no columns and
the run aborts with an uncaught `KeyError` in `show_summary`
(`df['year'].min()`) before the unified dataset is read; when the dataset
cannot be read, the exception propagates and nothing is written; otherwise
the merged dataset is written. -/
def main (readResult : Option (List Row)) (raws : List WVRaw) : RunResult :=
  if (transform_to_unified raws).isEmpty then RunResult.aborted
  else
    match readResult with
    | none => RunResult.aborted
    | some existing => RunResult.wrote (integrate existing raws)

end WV

/-! ### `integrate_usfs_pnw_species.py` -/

namespace USFS

/-- One row of `usfs_pnw_table92_species.csv` as consumed by the script. -/
structure PNWRaw where
  year : ℤ
  species : String
  price_per_mbf : Option ℚ
deriving DecidableEq, Repr

def SPECIES_MAP : List (String × String) :=
  [("douglas_fir_west", "douglas_fir"), ("douglas_fir_east", "douglas_fir"),
   ("douglas_fir_total", "douglas_fir"), ("ponderosa_jeffrey_pine", "ponderosa_pine"),
   ("sugar_pine", "sugar_pine"), ("white_pine", "white_pine"),
   ("lodgepole_pine", "lodgepole_pine"), ("engelmann_spruce", "engelmann_spruce"),
   ("sitka_spruce", "sitka_spruce"), ("western_hemlock", "western_hemlock"),
   ("cedars", "cedar"), ("larch", "larch"), ("noble_shasta_fir", "true_fir"),
   ("other_true_firs", "true_fir"), ("all_species", "all_species")]

def REGION_MAP : List (String × String) :=
  [("douglas_fir_west", "Western OR/WA"), ("douglas_fir_east", "Eastern OR/WA"),
   ("douglas_fir_total", "Pacific Northwest OR/WA")]

def MBF_TO_TONS : ℚ := 4.0

/-- The body of the row loop of `transform_to_unified`.  The species fallback
`SPECIES_MAP.get(species_raw, species_raw)` keeps the raw label unchanged. -/
def transform_row (row : PNWRaw) : Option Row :=
  match row.price_per_mbf with
  | none => none
  | some price =>
    if price ≤ 0 then none
    else
      let species := (List.lookup row.species SPECIES_MAP).getD row.species
      let region := (List.lookup row.species REGION_MAP).getD "Pacific Northwest OR/WA"
      let note_detail :=
        if strContainsSub row.species "west" then "West side (coastal). "
        else if strContainsSub row.species "east" then "East side (interior). "
        else ""
      some { source := "WA_OR", year := row.year, quarter := none, period_type := "annual",
             region := region, county := none, species := species,
             product_type := "sawtimber", price_avg := price,
             price_low := none, price_high := none, unit := "$/MBF",
             price_per_ton := some (round2 (price / MBF_TO_TONS)),
             conversion_factor := some MBF_TO_TONS, sample_size := none,
             notes := "USFS PNW Table 92. " ++ note_detail ++
               "National Forest stumpage, administered pricing." }

def transform_to_unified (l : List PNWRaw) : List Row := l.filterMap transform_row

/-- Subset of `drop_duplicates` in `main`:
`['source', 'year', 'species', 'region']`. -/
def pnwKey (r : Row) : String × ℤ × String × String :=
  (r.source, r.year, r.species, r.region)

/-- Keep an existing row: it is removed exactly when `source == 'WA_OR'`. -/
def keepRow (r : Row) : Bool := !(decide (r.source = "WA_OR"))

/-- The merge logic of `main`, as reached on a run whose transformed batch
is nonempty and whose existing dataset was read. -/
def integrate (existing : List Row) (raws : List PNWRaw) : List Row :=
  let wa_or_unified := dedupLast pnwKey (transform_to_unified raws)
  sortRows (existing.filter keepRow ++ wa_or_unified)

/-- `main` as a function of the result of `pd.read_csv(UNIFIED_PATH)`.
When every input row is skipped, `pd.DataFrame(rows)` has no columns and
the run aborts with an uncaught `KeyError` in `show_summary`
(`df['year'].min()`) before the unified dataset is read; when the dataset
cannot be read, the exception propagates and nothing is written; otherwise
the merged dataset is written. -/
def main (readResult : Option (List Row)) (raws : List PNWRaw) : RunResult :=
  if (transform_to_unified raws).isEmpty then RunResult.aborted
  else
    match readResult with
    | none => RunResult.aborted
    | some existing => RunResult.wrote (integrate existing raws)

end USFS

/-! ### Concrete example data -/

/-- An existing-dataset row from an untouched source. -/
def xxRow : Row :=
  { source := "XX", year := 2015, quarter := some 1, period_type := "quarterly",
    region := "Statewide", county := none, species := "pine", product_type := "sawtimber",
    price_avg := 25, price_low := none, price_high := none, unit := "$/ton",
    price_per_ton := some 25, conversion_factor := some 1, sample_size := none,
    notes := "test row" }

/-- A batch row for source WV. -/
def wvRowC : Row :=
  { source := "WV", year := 2022, quarter := none, period_type := "annual",
    region := "Southern", county := none, species := "red_oak", product_type := "sawtimber",
    price_avg := 300, price_low := some 200, price_high := some 400, unit := "$/MBF",
    price_per_ton := some 60, conversion_factor := some 5, sample_size := some 12,
    notes := "WV Division of Forestry Timber Market Report" }

/-- An old WV row present in the existing dataset. -/
def wvOldRow : Row :=
  { source := "WV", year := 2010, quarter := none, period_type := "annual",
    region := "Southern", county := none, species := "red_oak", product_type := "sawtimber",
    price_avg := 150, price_low := none, price_high := none, unit := "$/MBF",
    price_per_ton := some 30, conversion_factor := some 5, sample_size := none,
    notes := "WV Division of Forestry Timber Market Report" }

/-- An existing CA row whose notes do not mention CDTFA. -/
def caLegacyRow : Row :=
  { source := "CA", year := 2005, quarter := none, period_type := "annual",
    region := "Statewide", county := none, species := "redwood", product_type := "sawtimber",
    price_avg := 500, price_low := none, price_high := none, unit := "$/MBF",
    price_per_ton := some 125, conversion_factor := some 4, sample_size := none,
    notes := "CA BOE harvest value schedule, legacy series" }

/-- An existing row from a different source whose notes mention CDTFA. -/
def mdRow : Row :=
  { source := "MD", year := 2019, quarter := some 2, period_type := "quarterly",
    region := "Statewide", county := none, species := "mixed_hardwood",
    product_type := "sawtimber", price_avg := 80, price_low := none, price_high := none,
    unit := "$/MBF", price_per_ton := some 16, conversion_factor := some 5,
    sample_size := none, notes := "Methodology cross-checked against CDTFA schedules" }

/-- An existing MN row for a year outside the 2013-2023 window documented
for the MN windowed-replace run. -/
def mnOldRow : Row :=
  { source := "MN", year := 2030, quarter := none, period_type := "annual",
    region := "Statewide", county := none, species := "aspen", product_type := "cordwood",
    price_avg := 40, price_low := none, price_high := none, unit := "$/cord",
    price_per_ton := some 17, conversion_factor := some 2.3, sample_size := none,
    notes := "MN Forest Resources Report. Public agencies stumpage." }

/-- First-half CDTFA raw observation for 2020, Redwood, TVA 1. -/
def caRawH1 : CA.CARaw :=
  { year := 2020, half := 1, species := "Redwood", timber_value_area := 1,
    timber_type := some "green", size_code := "L", price_mbf := some 100 }

/-- Second-half CDTFA raw observation for the same year, species and TVA. -/
def caRawH2 : CA.CARaw :=
  { year := 2020, half := 2, species := "Redwood", timber_value_area := 1,
    timber_type := some "green", size_code := "L", price_mbf := some 120 }

/-- A CA raw row with a negative price. -/
def caNegRaw : CA.CARaw :=
  { year := 2021, half := 1, species := "Redwood", timber_value_area := 1,
    timber_type := some "green", size_code := "S", price_mbf := some (-5) }

/-- An MN raw row with a negative price. -/
def mnNegRaw : MN.MNRaw :=
  { year := 2020, species := "aspen", product_type := "pulpwood", unit := "$/cord",
    price := some (-7) }

/-- A PNW raw row whose species label has no mapping entry. -/
def usfsMysteryRaw : USFS.PNWRaw :=
  { year := 2020, species := "Mystery-Species", price_per_mbf := some 100 }

/-- A well-formed PNW raw row. -/
def pnwRawGood : USFS.PNWRaw :=
  { year := 2020, species := "sitka_spruce", price_per_mbf := some 100 }

/-- A WV raw row whose species label has a hyphen and no mapping entry. -/
def wvHyphenRaw : WV.WVRaw :=
  { year := 2020, region := "Region 1", species := "Chip-n-Saw", product_type := "Stumpage",
    unit := "$/MBF", price_avg := some 50, price_low := none, price_high := none,
    num_reports := none }

/-- A CA raw row whose species label has no mapping entry. -/
def caMysteryRaw : CA.CARaw :=
  { year := 2020, half := 1, species := "Foo Bar-Baz", timber_value_area := 2,
    timber_type := some "green", size_code := "M", price_mbf := some 100 }

/-- A WV raw row violating the price ordering: low 100 > avg 50 > high 10. -/
def wvBadRaw : WV.WVRaw :=
  { year := 2020, region := "Region 1", species := "Red Oak", product_type := "Stumpage",
    unit := "$/MBF", price_avg := some 50, price_low := some 100, price_high := some 10,
    num_reports := none }

/-- A WV raw row with an unrecognized unit (keeps all outputs literal). -/
def wvWitnessRaw : WV.WVRaw :=
  { year := 2021, region := "Region 1", species := "Red Oak", product_type := "Stumpage",
    unit := "$/acre", price_avg := some 50, price_low := some 40, price_high := some 60,
    num_reports := some 3 }

/-- The canonical row produced from `wvWitnessRaw`. -/
def wvWitnessRow : Row :=
  { source := "WV", year := 2021, quarter := none, period_type := "annual",
    region := "Eastern Panhandle", county := none, species := "red_oak",
    product_type := "sawtimber", price_avg := 50, price_low := some 40,
    price_high := some 60, unit := "$/acre", price_per_ton := none,
    conversion_factor := none, sample_size := some 3,
    notes := "WV Division of Forestry Timber Market Report" }

/-- An MN raw row priced per cord (46 / 2.3 = 20 exactly). -/
def mnRawCord : MN.MNRaw :=
  { year := 2020, species := "aspen", product_type := "pulpwood", unit := "$/cord",
    price := some 46 }

/-- The canonical row produced from `mnRawCord`. -/
def mnRowCord : Row :=
  { source := "MN", year := 2020, quarter := none, period_type := "annual",
    region := "Statewide", county := none, species := "aspen", product_type := "cordwood",
    price_avg := 46, price_low := none, price_high := none, unit := "$/cord",
    price_per_ton := some 20, conversion_factor := some 2.3, sample_size := none,
    notes := "MN Forest Resources Report. Public agencies stumpage." }

/-- An MN raw row with a unit outside the recognized set. -/
def mnRawTon : MN.MNRaw :=
  { year := 2020, species := "aspen", product_type := "sawtimber", unit := "$/ton",
    price := some 30 }

/-- The canonical row produced from `mnRawTon`: conversion outputs are null. -/
def mnRowTon : Row :=
  { source := "MN", year := 2020, quarter := none, period_type := "annual",
    region := "Statewide", county := none, species := "aspen", product_type := "sawtimber",
    price_avg := 30, price_low := none, price_high := none, unit := "$/ton",
    price_per_ton := none, conversion_factor := none, sample_size := none,
    notes := "MN Forest Resources Report. Public agencies stumpage." }

/-! ### Helper lemmas -/

theorem sortRows_perm (l : List Row) : (sortRows l).Perm l :=
  List.perm_insertionSort _ l

theorem mem_of_mem_dedupLast {α β : Type} [DecidableEq β] (k : α → β) (l : List α) (x : α)
    (h : x ∈ dedupLast k l) : x ∈ l := by
  induction l with
  | nil => simp [dedupLast] at h
  | cons a l ih =>
    simp only [dedupLast] at h
    split at h
    · exact List.mem_cons_of_mem _ (ih h)
    · rcases List.mem_cons.mp h with rfl | h2
      · exact List.mem_cons_self _ _
      · exact List.mem_cons_of_mem _ (ih h2)

theorem pairwise_dedupLast {α β : Type} [DecidableEq β] (k : α → β) (l : List α) :
    (dedupLast k l).Pairwise (fun a b => k a ≠ k b) := by
  induction l with
  | nil => exact List.Pairwise.nil
  | cons a l ih =>
    simp only [dedupLast]
    split
    · exact ih
    · refine List.Pairwise.cons ?_ ih
      intro b hb hk
      rename_i hany
      exact hany (by
        simp only [List.any_eq_true, decide_eq_true_eq]
        exact ⟨b, mem_of_mem_dedupLast k l b hb, hk.symm⟩)

theorem filter_dedupLast {α β : Type} [DecidableEq β] (k : α → β) (l : List α) (c : β) :
    (dedupLast k l).filter (fun r => decide (k r = c)) =
      ((l.filter (fun r => decide (k r = c))).getLast?).toList := by
  induction l with
  | nil => simp [dedupLast]
  | cons a l ih =>
    simp only [dedupLast]
    by_cases hany : (l.any fun s => decide (k s = k a)) = true
    · rw [if_pos hany, ih]
      by_cases hc : k a = c
      · have hne : l.filter (fun r => decide (k r = c)) ≠ [] := by
          simp only [List.any_eq_true, decide_eq_true_eq] at hany
          obtain ⟨s, hs, hks⟩ := hany
          intro hemp
          have hmem : s ∈ l.filter (fun r => decide (k r = c)) := by
            simp [List.mem_filter, hs, hks, hc]
          simp [hemp] at hmem
        obtain ⟨x, xs, hxs⟩ := List.exists_cons_of_ne_nil hne
        simp only [List.filter_cons]
        rw [if_pos (by simp [hc]), hxs, List.getLast?_cons_cons]
      · simp [List.filter_cons, hc]
    · rw [if_neg hany]
      by_cases hc : k a = c
      · have hemp : l.filter (fun r => decide (k r = c)) = [] := by
          rw [List.filter_eq_nil_iff]
          intro s hs
          simp only [decide_eq_true_eq]
          intro hks
          exact hany (by
            simp only [List.any_eq_true, decide_eq_true_eq]
            exact ⟨s, hs, by rw [hks, hc]⟩)
        simp [List.filter_cons, hc, ih, hemp]
      · simp only [List.filter_cons]
        rw [if_neg (by simp [hc]), if_neg (by simp [hc])]
        exact ih

/-- Every row produced by the USFS transform has constant source, quarter
and product_type. -/
theorem usfs_transform_row_fields (raw : USFS.PNWRaw) (r : Row)
    (h : USFS.transform_row raw = some r) :
    r.source = "WA_OR" ∧ r.quarter = none ∧ r.product_type = "sawtimber" := by
  unfold USFS.transform_row at h
  cases hp : raw.price_per_mbf with
  | none => rw [hp] at h; exact absurd h (by simp)
  | some price =>
    rw [hp] at h
    simp only at h
    split at h
    · exact absurd h (by simp)
    · cases h
      exact ⟨rfl, rfl, rfl⟩

/-- Every row produced by the WV transform has source `"WV"`. -/
theorem wv_transform_row_source (raw : WV.WVRaw) (r : Row)
    (h : WV.transform_row raw = some r) : r.source = "WV" := by
  unfold WV.transform_row at h
  cases hp : raw.price_avg with
  | none => rw [hp] at h; exact absurd h (by simp)
  | some price =>
    rw [hp] at h
    simp only at h
    split at h
    · exact absurd h (by simp)
    · cases h; rfl

/-- After a WV merge, filtering for the merged source recovers exactly the
batch (as a multiset). -/
theorem wv_merge_filter_wv (existing batch : List Row) (h : ∀ r ∈ batch, r.source = "WV") :
    ((WV.merge existing batch).filter (fun r => decide (r.source = "WV"))).Perm batch := by
  unfold WV.merge
  have hperm := (sortRows_perm (existing.filter WV.keepRow ++ batch)).filter
    (fun r => decide (r.source = "WV"))
  rw [List.filter_append] at hperm
  have h1 : (existing.filter WV.keepRow).filter (fun r => decide (r.source = "WV")) = [] := by
    rw [List.filter_eq_nil_iff]
    intro a ha
    have h2 := (List.mem_filter.mp ha).2
    simp only [WV.keepRow, Bool.not_eq_true', decide_eq_false_iff_not] at h2
    simp [h2]
  have h2 : batch.filter (fun r => decide (r.source = "WV")) = batch := by
    rw [List.filter_eq_self]
    intro a ha
    simp [h a ha]
  rw [h1, h2, List.nil_append] at hperm
  exact hperm

/-- After a WV merge, the rows of other sources are exactly the retained
existing rows (as a multiset). -/
theorem wv_merge_filter_keep (existing batch : List Row) (h : ∀ r ∈ batch, r.source = "WV") :
    ((WV.merge existing batch).filter WV.keepRow).Perm (existing.filter WV.keepRow) := by
  unfold WV.merge
  have hperm := (sortRows_perm (existing.filter WV.keepRow ++ batch)).filter WV.keepRow
  rw [List.filter_append] at hperm
  have h1 : (existing.filter WV.keepRow).filter WV.keepRow = existing.filter WV.keepRow := by
    rw [List.filter_eq_self]
    intro a ha
    exact (List.mem_filter.mp ha).2
  have h2 : batch.filter WV.keepRow = [] := by
    rw [List.filter_eq_nil_iff]
    intro a ha
    simp [WV.keepRow, h a ha]
  rw [h1, h2, List.append_nil] at hperm
  exact hperm

/-! ### Claims -/

/-- C1 counterexample: the composite key (source, year, quarter, species,
region, product_type) is not unique in the written output.  A CA run over
the two semi-annual observations of 2020 (H1 and H2) for the same species
and timber value area writes two rows sharing the six-field key, because
the CA dedup key additionally contains `notes` (which differ by half) and
`quarter` is `None` for both. -/
theorem C1_counterexample :
    ¬ (CA.integrate [] [caRawH1, caRawH2]).Pairwise keyDistinct := by decide

/-- C1 (amended): a run guarantees key uniqueness only relative to what it
touches.  For the USFS full-replace run: the new batch is key-unique (its
dedup key (source, year, species, region) determines the six-field key
because source, quarter and product_type are constant over the batch), and
batch rows cannot collide with retained rows (whose source differs); hence
if the retained existing rows are key-unique, the whole output is.
Uniqueness of the untouched part is assumed, not established, by the run. -/
theorem C1_amended (existing : List Row) (raws : List USFS.PNWRaw)
    (h : (existing.filter USFS.keepRow).Pairwise keyDistinct) :
    (USFS.integrate existing raws).Pairwise keyDistinct := by
  have hmemT : ∀ r ∈ USFS.transform_to_unified raws,
      r.source = "WA_OR" ∧ r.quarter = none ∧ r.product_type = "sawtimber" := by
    intro r hr
    obtain ⟨a, _, hEq⟩ := List.mem_filterMap.mp hr
    exact usfs_transform_row_fields a r hEq
  have hmemB : ∀ r ∈ dedupLast USFS.pnwKey (USFS.transform_to_unified raws),
      r.source = "WA_OR" ∧ r.quarter = none ∧ r.product_type = "sawtimber" :=
    fun r hr => hmemT r (mem_of_mem_dedupLast _ _ r hr)
  have hBpair : (dedupLast USFS.pnwKey (USFS.transform_to_unified raws)).Pairwise keyDistinct := by
    refine List.Pairwise.imp_of_mem ?_
      (pairwise_dedupLast USFS.pnwKey (USFS.transform_to_unified raws))
    intro a b ha hb hk hk6
    apply hk
    obtain ⟨-, hqa, hpa⟩ := hmemB a ha
    obtain ⟨-, hqb, hpb⟩ := hmemB b hb
    simp only [key6, Prod.mk.injEq] at hk6
    obtain ⟨hs, hy, -, hsp, hrg, -⟩ := hk6
    simp [USFS.pnwKey, Prod.mk.injEq, hs, hy, hsp, hrg]
  have hcross : ∀ a ∈ existing.filter USFS.keepRow,
      ∀ b ∈ dedupLast USFS.pnwKey (USFS.transform_to_unified raws), keyDistinct a b := by
    intro a ha b hb hk6
    have ha2 := (List.mem_filter.mp ha).2
    simp only [USFS.keepRow, Bool.not_eq_true', decide_eq_false_iff_not] at ha2
    have hbs := (hmemB b hb).1
    simp only [key6, Prod.mk.injEq] at hk6
    exact ha2 (hk6.1.trans hbs)
  have happ : (existing.filter USFS.keepRow ++
      dedupLast USFS.pnwKey (USFS.transform_to_unified raws)).Pairwise keyDistinct :=
    List.pairwise_append.mpr ⟨h, hBpair, hcross⟩
  have hperm : (USFS.integrate existing raws).Perm
      (existing.filter USFS.keepRow ++ dedupLast USFS.pnwKey (USFS.transform_to_unified raws)) :=
    sortRows_perm _
  exact (hperm.pairwise_iff (fun hab => Ne.symm hab)).mpr happ

/-- C1 witness: the amended theorem applied to a one-row existing dataset
and a one-row USFS batch. -/
theorem C1_witness : (USFS.integrate [xxRow] [pnwRawGood]).Pairwise keyDistinct :=
  C1_amended [xxRow] [pnwRawGood] (by decide)

/-- C2 counterexample: the Deduplicator does not return one record per
six-field composite key.  The CA script dedups on a key that additionally
contains `notes`, so the H1 and H2 observations of one year — identical on
all six key fields — are both kept. -/
theorem C2_counterexample :
    ¬ (dedupLast CA.caKey (CA.transform_to_unified [caRawH1, caRawH2])).Pairwise
      keyDistinct := by decide

/-- C2 (amended): deduplication keeps, per script-specific key, exactly the
last occurrence in input order.  For each key value, the rows of the output
having that key are exactly the last input row with that key; output keys
are pairwise distinct.  The key is (source, year, species, region,
product_type, notes) in the CA script and (source, year, species,
product_type) in the MN script — neither is the six-field composite key of
the spec, though MN batches have constant quarter and region. -/
theorem C2_amended :
    (∀ (l : List Row) (c : String × ℤ × String × String × String × String),
      (dedupLast CA.caKey l).filter (fun r => decide (CA.caKey r = c)) =
        ((l.filter (fun r => decide (CA.caKey r = c))).getLast?).toList) ∧
    (∀ (l : List Row) (c : String × ℤ × String × String),
      (dedupLast MN.mnKey l).filter (fun r => decide (MN.mnKey r = c)) =
        ((l.filter (fun r => decide (MN.mnKey r = c))).getLast?).toList) ∧
    (∀ l : List Row, (dedupLast CA.caKey l).Pairwise (fun a b => CA.caKey a ≠ CA.caKey b)) ∧
    (∀ l : List Row, (dedupLast MN.mnKey l).Pairwise (fun a b => MN.mnKey a ≠ MN.mnKey b)) :=
  ⟨fun l c => filter_dedupLast CA.caKey l c, fun l c => filter_dedupLast MN.mnKey l c,
   fun l => pairwise_dedupLast CA.caKey l, fun l => pairwise_dedupLast MN.mnKey l⟩

/-- C3 counterexample: the CA integration run is not a replace-by-source.
It prunes by `notes.str.contains('CDTFA')`: on a run with a nonempty batch
(one H1 observation, so the run reaches the write), an existing CA row
whose notes do not mention CDTFA survives — the output has a CA row that is
not in the new batch — while a non-CA row whose notes mention CDTFA is
removed. -/
theorem C3_counterexample :
    CA.main (some [caLegacyRow, mdRow]) [caRawH1] ≠ RunResult.aborted ∧
    caLegacyRow.source = "CA" ∧
    caLegacyRow ∈ CA.integrate [caLegacyRow, mdRow] [caRawH1] ∧
    caLegacyRow ∉ CA.transform_to_unified [caRawH1] ∧
    mdRow.source ≠ "CA" ∧
    mdRow ∉ CA.integrate [caLegacyRow, mdRow] [caRawH1] := by decide

/-- C3 (amended): the WV (and USFS) full replace behaves as claimed: after
the merge, the rows with source WV are exactly the new batch, and the rows
of all other sources are exactly the retained existing rows, values
unchanged (both as multisets).  The CA script instead prunes by a notes
substring, not by source. -/
theorem C3_amended (existing batch : List Row) (h : ∀ r ∈ batch, r.source = "WV") :
    ((WV.merge existing batch).filter (fun r => decide (r.source = "WV"))).Perm batch ∧
    ((WV.merge existing batch).filter WV.keepRow).Perm (existing.filter WV.keepRow) :=
  ⟨wv_merge_filter_wv existing batch h, wv_merge_filter_keep existing batch h⟩

/-- C3 witness: the amended theorem at a two-row existing dataset and a
one-row WV batch. -/
theorem C3_witness :
    ((WV.merge [xxRow, wvOldRow] [wvRowC]).filter (fun r => decide (r.source = "WV"))).Perm
      [wvRowC] ∧
    ((WV.merge [xxRow, wvOldRow] [wvRowC]).filter WV.keepRow).Perm
      ([xxRow, wvOldRow].filter WV.keepRow) :=
  C3_amended [xxRow, wvOldRow] [wvRowC] (by decide)

/-- C4: unit conversion.  For every assembled MN or WV record: when the unit
is in the recognized set, `price_per_ton` is `price_avg` divided by the
unit's conversion factor, rounded to 2 decimals, and `conversion_factor`
echoes the factor; when the unit is unrecognized, both outputs are null and
the record is still produced (a row with a usable price is never dropped
for its unit). -/
theorem C4_conversion :
    (∀ (raw : MN.MNRaw) (r : Row), MN.transform_row raw = some r →
      ((raw.unit = "$/cord" →
          r.price_per_ton = some (round2 (r.price_avg / MN.CORD_TO_TONS)) ∧
          r.conversion_factor = some MN.CORD_TO_TONS) ∧
       (raw.unit = "$/MBF" →
          r.price_per_ton = some (round2 (r.price_avg / MN.MBF_TO_TONS)) ∧
          r.conversion_factor = some MN.MBF_TO_TONS) ∧
       (raw.unit ≠ "$/cord" → raw.unit ≠ "$/MBF" →
          r.price_per_ton = none ∧ r.conversion_factor = none))) ∧
    (∀ (raw : MN.MNRaw) (p : ℚ), raw.price = some p → p ≠ 0 →
      (MN.transform_row raw).isSome = true) ∧
    (∀ (raw : WV.WVRaw) (r : Row), WV.transform_row raw = some r →
      ((raw.unit = "$/MBF" →
          r.price_per_ton = some (round2 (r.price_avg / WV.MBF_TO_TONS)) ∧
          r.conversion_factor = some WV.MBF_TO_TONS) ∧
       (raw.unit = "$/Cord" →
          r.price_per_ton = some (round2 (r.price_avg / 2.5)) ∧
          r.conversion_factor = some (2.5 : ℚ)) ∧
       (raw.unit ≠ "$/MBF" → raw.unit ≠ "$/Cord" →
          r.price_per_ton = none ∧ r.conversion_factor = none))) ∧
    (∀ (raw : WV.WVRaw) (p : ℚ), raw.price_avg = some p → p ≠ 0 →
      (WV.transform_row raw).isSome = true) := by
  refine ⟨?_, ?_, ?_, ?_⟩
  · intro raw r h
    unfold MN.transform_row at h
    cases hp : raw.price with
    | none => rw [hp] at h; exact absurd h (by simp)
    | some price =>
      rw [hp] at h
      simp only at h
      by_cases hz : price = 0
      · rw [if_pos hz] at h; exact absurd h (by simp)
      · rw [if_neg hz] at h
        injection h with h2
        subst h2
        refine ⟨fun hu => ?_, fun hu => ?_, fun hu1 hu2 => ?_⟩
        · have hne : price / MN.CORD_TO_TONS ≠ 0 :=
            div_ne_zero hz (by norm_num [MN.CORD_TO_TONS])
          simp [hu, hne]
        · have hne : price / MN.MBF_TO_TONS ≠ 0 :=
            div_ne_zero hz (by norm_num [MN.MBF_TO_TONS])
          simp [hu, hne]
        · simp [hu1, hu2]
  · intro raw p hp hz
    unfold MN.transform_row
    rw [hp]
    simp [hz]
  · intro raw r h
    unfold WV.transform_row at h
    cases hp : raw.price_avg with
    | none => rw [hp] at h; exact absurd h (by simp)
    | some price =>
      rw [hp] at h
      simp only at h
      by_cases hz : price = 0
      · rw [if_pos hz] at h; exact absurd h (by simp)
      · rw [if_neg hz] at h
        injection h with h2
        subst h2
        refine ⟨fun hu => ?_, fun hu => ?_, fun hu1 hu2 => ?_⟩
        · have hne : price / WV.MBF_TO_TONS ≠ 0 :=
            div_ne_zero hz (by norm_num [WV.MBF_TO_TONS])
          simp [hu, hne]
        · have hne : price / (2.5 : ℚ) ≠ 0 := div_ne_zero hz (by norm_num)
          simp [hu, hne]
        · simp [hu1, hu2]
  · intro raw p hp hz
    unfold WV.transform_row
    rw [hp]
    simp [hz]

/-- C4 witness: the theorem at a recognized-unit MN row (46 $/cord) and an
unrecognized-unit MN row ($/ton). -/
theorem C4_witness :
    mnRowCord.price_per_ton = some (round2 (mnRowCord.price_avg / MN.CORD_TO_TONS)) ∧
    mnRowCord.conversion_factor = some MN.CORD_TO_TONS ∧
    mnRowTon.price_per_ton = none ∧ mnRowTon.conversion_factor = none ∧
    (MN.transform_row mnRawCord).isSome = true := by
  have hcord : MN.transform_row mnRawCord = some mnRowCord := by
    simp [MN.transform_row, mnRawCord, mnRowCord, MN.PRODUCT_MAP, MN.CORD_TO_TONS, List.lookup]
    norm_num [round2, roundEvenInt]
  have h1 := (C4_conversion.1 mnRawCord mnRowCord hcord).1 rfl
  have h2 := (C4_conversion.1 mnRawTon mnRowTon (by decide)).2.2 (by decide) (by decide)
  have h3 := C4_conversion.2.1 mnRawCord 46 rfl (by norm_num)
  exact ⟨h1.1, h1.2, h2.1, h2.2, h3⟩

/-- C5 counterexample: non-positive prices are not skipped.  A CA row with
price -5 and an MN row with price -7 both survive into the output batch. -/
theorem C5_counterexample :
    ((CA.transform_to_unified [caNegRaw]).map Row.price_avg) = [(-5 : ℚ)] ∧
    ((MN.transform_to_unified [mnNegRaw]).map Row.price_avg) = [(-7 : ℚ)] := by decide

/-- C5 (amended): each script skips rows by its own price predicate, always
by `continue` (never by raising): CA skips exactly null prices (zero and
negative prices are kept); MN and WV skip exactly null-or-zero prices
(negative prices are kept); only USFS skips all non-positive prices.  No
script maintains a skipped-row counter. -/
theorem C5_amended :
    (∀ raw : CA.CARaw, CA.transform_row raw = none ↔ raw.price_mbf = none) ∧
    (∀ raw : MN.MNRaw, MN.transform_row raw = none ↔
      (raw.price = none ∨ raw.price = some 0)) ∧
    (∀ raw : WV.WVRaw, WV.transform_row raw = none ↔
      (raw.price_avg = none ∨ raw.price_avg = some 0)) ∧
    (∀ raw : USFS.PNWRaw, USFS.transform_row raw = none ↔
      (raw.price_per_mbf = none ∨ ∃ p, raw.price_per_mbf = some p ∧ p ≤ 0)) := by
  refine ⟨?_, ?_, ?_, ?_⟩
  · intro raw
    unfold CA.transform_row
    cases hp : raw.price_mbf <;> simp [hp]
  · intro raw
    unfold MN.transform_row
    cases hp : raw.price with
    | none => simp [hp]
    | some p => by_cases hz : p = 0 <;> simp [hp, hz]
  · intro raw
    unfold WV.transform_row
    cases hp : raw.price_avg with
    | none => simp [hp]
    | some p => by_cases hz : p = 0 <;> simp [hp, hz]
  · intro raw
    unfold USFS.transform_row
    cases hp : raw.price_per_mbf with
    | none => simp [hp]
    | some p => by_cases hz : p ≤ 0 <;> simp [hp, hz]

/-- C6 counterexample: the MN windowed replace has no upper year bound.  On
a run with a nonempty batch (one 2020 cordwood row, so the run reaches the
write), an existing MN row for year 2030 — outside the documented
2013-2023 window — is removed instead of being preserved. -/
theorem C6_counterexample :
    mnOldRow.source = "MN" ∧ mnOldRow.year = 2030 ∧
    ¬ ((2013 : ℤ) ≤ 2030 ∧ (2030 : ℤ) ≤ 2023) ∧
    MN.main (some [mnOldRow]) [mnRawCord] ≠ RunResult.aborted ∧
    mnOldRow ∉ MN.integrate [mnOldRow] [mnRawCord] := by decide

/-- C6 (amended): an MN run whose batch is nonempty reaches the write and
removes exactly the existing rows with `source == 'MN' and year >= 2013`
(a lower-bounded window with no upper bound), appending the deduplicated
batch; every other existing row appears in the written output with all
field values unchanged (the output is a permutation of the retained rows
plus the batch). -/
theorem C6_amended (existing : List Row) (raws : List MN.MNRaw) :
    (MN.transform_to_unified raws ≠ [] →
      MN.main (some existing) raws = RunResult.wrote (MN.integrate existing raws)) ∧
    (MN.integrate existing raws).Perm
      (existing.filter MN.keepRow ++ dedupLast MN.mnKey (MN.transform_to_unified raws)) ∧
    (∀ r ∈ existing, r.source ≠ "MN" → r ∈ MN.integrate existing raws) ∧
    (∀ r ∈ existing, r.year < 2013 → r ∈ MN.integrate existing raws) := by
  have hperm : (MN.integrate existing raws).Perm
      (existing.filter MN.keepRow ++ dedupLast MN.mnKey (MN.transform_to_unified raws)) :=
    sortRows_perm _
  refine ⟨?_, hperm, ?_, ?_⟩
  · intro hne
    have h0 : (MN.transform_to_unified raws).isEmpty = false := by
      cases hcase : MN.transform_to_unified raws with
      | nil => exact absurd hcase hne
      | cons a t => simp [hcase]
    simp [MN.main, h0]
  · intro r hr hs
    have hmem : r ∈ existing.filter MN.keepRow :=
      List.mem_filter.mpr ⟨hr, by simp [MN.keepRow, hs]⟩
    exact hperm.mem_iff.mpr (List.mem_append_left _ hmem)
  · intro r hr hy
    have hk : MN.keepRow r = true := by
      simp only [MN.keepRow, Bool.not_eq_true', Bool.and_eq_false_iff, decide_eq_false_iff_not]
      right
      omega
    exact hperm.mem_iff.mpr (List.mem_append_left _ (List.mem_filter.mpr ⟨hr, hk⟩))

/-- C6 witness: a nonempty-batch MN run reaches the write, and a non-MN row
survives it. -/
theorem C6_witness :
    MN.main (some [xxRow]) [mnRawCord] =
      RunResult.wrote (MN.integrate [xxRow] [mnRawCord]) ∧
    xxRow ∈ MN.integrate [xxRow] [mnRawCord] :=
  ⟨(C6_amended [xxRow] [mnRawCord]).1 (by decide),
   (C6_amended [xxRow] [mnRawCord]).2.2.1 xxRow (by decide) (by decide)⟩

/-- C7: when `pd.read_csv(UNIFIED_PATH)` fails, the exception propagates
uncaught and every integration script aborts before reaching `to_csv`: no
write happens, and in particular no run ever proceeds from an empty
dataset. -/
theorem C7_read_failure_aborts :
    (∀ raws : List MN.MNRaw, MN.main none raws = RunResult.aborted) ∧
    (∀ raws : List CA.CARaw, CA.main none raws = RunResult.aborted) ∧
    (∀ raws : List WV.WVRaw, WV.main none raws = RunResult.aborted) ∧
    (∀ raws : List USFS.PNWRaw, USFS.main none raws = RunResult.aborted) := by
  refine ⟨fun raws => ?_, fun raws => ?_, fun raws => ?_, fun raws => ?_⟩
  · unfold MN.main; split <;> rfl
  · unfold CA.main; split <;> rfl
  · unfold WV.main; split <;> rfl
  · unfold USFS.main; split <;> rfl

/-- C8 counterexample: the unmapped-label fallback is not uniformly the
lower-cased, underscore-normalized string.  USFS passes the raw label
through unchanged ("Mystery-Species" is neither lower-cased nor
normalized), and WV does not replace hyphens ("Chip-n-Saw" becomes
"chip-n-saw", not "chip_n_saw"). -/
theorem C8_counterexample :
    List.lookup "Mystery-Species" USFS.SPECIES_MAP = none ∧
    ((USFS.transform_row usfsMysteryRaw).map Row.species) = some "Mystery-Species" ∧
    lowerStr "Mystery-Species" ≠ "Mystery-Species" ∧
    List.lookup "Chip-n-Saw" WV.SPECIES_MAP = none ∧
    ((WV.transform_row wvHyphenRaw).map Row.species) = some "chip-n-saw" ∧
    replaceChar '-' '_' "chip-n-saw" ≠ "chip-n-saw" := by decide

/-- C8 (amended): the fallback for an unmapped species label differs per
script and never fails: CA lower-cases and replaces spaces and hyphens with
underscores; WV lower-cases and replaces only spaces; USFS keeps the raw
label unchanged. -/
theorem C8_fallbacks :
    (∀ (raw : CA.CARaw) (p : ℚ), raw.price_mbf = some p →
      List.lookup raw.species CA.SPECIES_MAP = none →
      (CA.transform_row raw).map Row.species = some (CA.speciesFallback raw.species)) ∧
    (∀ (raw : WV.WVRaw) (p : ℚ), raw.price_avg = some p → p ≠ 0 →
      List.lookup raw.species WV.SPECIES_MAP = none →
      (WV.transform_row raw).map Row.species = some (WV.speciesFallback raw.species)) ∧
    (∀ (raw : USFS.PNWRaw) (p : ℚ), raw.price_per_mbf = some p → ¬ p ≤ 0 →
      List.lookup raw.species USFS.SPECIES_MAP = none →
      (USFS.transform_row raw).map Row.species = some raw.species) := by
  refine ⟨?_, ?_, ?_⟩
  · intro raw p hp hl
    unfold CA.transform_row
    rw [hp]
    simp [hl]
  · intro raw p hp hz hl
    unfold WV.transform_row
    rw [hp]
    simp [hz, hl]
  · intro raw p hp hz hl
    unfold USFS.transform_row
    rw [hp]
    simp [hz, hl]

/-- C8 witness: the three fallbacks at concrete unmapped labels. -/
theorem C8_witness :
    (CA.transform_row caMysteryRaw).map Row.species =
      some (CA.speciesFallback "Foo Bar-Baz") ∧
    (WV.transform_row wvHyphenRaw).map Row.species =
      some (WV.speciesFallback "Chip-n-Saw") ∧
    (USFS.transform_row usfsMysteryRaw).map Row.species = some "Mystery-Species" :=
  ⟨C8_fallbacks.1 caMysteryRaw 100 rfl (by decide),
   C8_fallbacks.2.1 wvHyphenRaw 50 rfl (by norm_num) (by decide),
   C8_fallbacks.2.2 usfsMysteryRaw 100 rfl (by norm_num) (by decide)⟩

/-- C9 counterexample: no cleaning step checks the price ordering.  A WV
input row with price_low 100, price_avg 50, price_high 10 is transformed
and retained as-is, violating low <= avg <= high. -/
theorem C9_counterexample :
    ((WV.transform_row wvBadRaw).map priceTriple) = some (some 100, 50, some 10) ∧
    ¬ ((100 : ℚ) ≤ 50 ∧ (50 : ℚ) ≤ 10) := by
  refine ⟨by decide, by norm_num⟩

/-- C9 (amended): the WV transform copies `price_low`, `price_high` and
`price_avg` through unchanged and performs no ordering check; the ordering
invariant holds in the output exactly when the parsed input satisfies it,
and violating rows are stored silently. -/
theorem C9_amended (raw : WV.WVRaw) (r : Row) (h : WV.transform_row raw = some r) :
    r.price_low = raw.price_low ∧ r.price_high = raw.price_high ∧
    raw.price_avg = some r.price_avg := by
  unfold WV.transform_row at h
  cases hp : raw.price_avg with
  | none => rw [hp] at h; exact absurd h (by simp)
  | some price =>
    rw [hp] at h
    simp only at h
    split at h
    · exact absurd h (by simp)
    · injection h with h2
      subst h2
      exact ⟨rfl, rfl, rfl⟩

/-- C9 witness: the pass-through at a concrete WV row. -/
theorem C9_witness :
    wvWitnessRow.price_low = wvWitnessRaw.price_low ∧
    wvWitnessRow.price_high = wvWitnessRaw.price_high ∧
    wvWitnessRaw.price_avg = some wvWitnessRow.price_avg :=
  C9_amended wvWitnessRaw wvWitnessRow (by decide)

/-- C10: full replace is idempotent.  Running the WV merge engine twice
with the same batch yields a dataset with exactly the same rows and values
(as a multiset; row order is governed by the final re-sort) as running it
once. -/
theorem C10_full_replace_idempotent (existing batch : List Row)
    (h : ∀ r ∈ batch, r.source = "WV") :
    (WV.merge (WV.merge existing batch) batch).Perm (WV.merge existing batch) := by
  have h1 : (WV.merge (WV.merge existing batch) batch).Perm
      ((WV.merge existing batch).filter WV.keepRow ++ batch) := sortRows_perm _
  have h2 : ((WV.merge existing batch).filter WV.keepRow ++ batch).Perm
      (existing.filter WV.keepRow ++ batch) :=
    (wv_merge_filter_keep existing batch h).append_right batch
  have h3 : (existing.filter WV.keepRow ++ batch).Perm (WV.merge existing batch) :=
    (sortRows_perm _).symm
  exact (h1.trans h2).trans h3

/-- C10 witness: idempotence at a two-row existing dataset and a one-row
WV batch. -/
theorem C10_witness :
    (WV.merge (WV.merge [xxRow, wvOldRow] [wvRowC]) [wvRowC]).Perm
      (WV.merge [xxRow, wvOldRow] [wvRowC]) :=
  C10_full_replace_idempotent [xxRow, wvOldRow] [wvRowC] (by decide)

end ForestRents
